import Mathlib

/-!
Shallow embedding of the aws-dynamodb-store RBAC core: a single DynamoDB
table modelled as a list of items keyed by (PK, SK), the user/role/permission
repositories, and the RBAC service layer, translated from the Go source.
-/

deriving instance DecidableEq for Except

namespace RBAC

/-- Key constants from `dynamodb_rbac.go`. -/
def EntityTypeUser : String := "USER"

def EntityTypeRole : String := "ROLE"

def EntityTypePermission : String := "PERMISSION"

def MetadataPrefix : String := "METADATA#"

def UserPrefix : String := "USER#"

def RolePrefix : String := "ROLE#"

def PermissionPrefix : String := "PERMISSION#"

/-- A DynamoDB item: the attributes used by this repository.  DynamoDB is
schemaless; attributes an item kind does not use are carried as `""`/`0`
defaults (matching `omitempty` marshalling). Timestamps are modelled as `Nat`. -/
structure Item where
  PK : String
  SK : String
  EntityType : String
  EntityID : String
  DisplayName : String
  Email : String
  Description : String
  CreatedAt : Nat
  UpdatedAt : Nat
  AssignedAt : Nat
deriving DecidableEq, Repr

/-- The single physical table.  DynamoDB guarantees at most one item per
(PK, SK) primary key; `putItem` below maintains that by replacing. -/
abbrev Table := List Item

/-- Repository errors (`repository.go`): `ErrNotFound`, `ErrAlreadyExists`.
Go callers wrap these with context strings via `fmt.Errorf("...: %w", err)`;
`errors.Is` still matches, so the model keeps the underlying value. -/
inductive RepoError where
  | notFound
  | alreadyExists
deriving DecidableEq, Repr

/-- DynamoDB `begins_with` on the sort key, and the SDK's byte-slice view of
string keys, modelled on the character list of the string. -/
def beginsWith (p s : String) : Bool := p.data.isPrefixOf s.data

/-- An item matches a primary key when both PK and SK agree. -/
def keyMatch (i : Item) (pk sk : String) : Bool := i.PK == pk && i.SK == sk

/-- Point read at a primary key (`GetItem`). -/
def getItem (t : Table) (pk sk : String) : Option Item :=
  List.find? (fun i => keyMatch i pk sk) t

/-- Unconditional `PutItem`: replaces any item at the same primary key. -/
def putItem (t : Table) (i : Item) : Table :=
  i :: List.filter (fun j => !(keyMatch j i.PK i.SK)) t

/-- `DeleteItem` at a primary key. -/
def deleteItem (t : Table) (pk sk : String) : Table :=
  List.filter (fun j => !(keyMatch j pk sk)) t

/-- Range query: `PK = pk AND begins_with(SK, pre)`. -/
def queryPK (t : Table) (pk pre : String) : List Item :=
  List.filter (fun i => i.PK == pk && beginsWith pre i.SK) t

/-- GSI1 query used by `ListUsersInRole`: `SK = sk AND begins_with(PK, pre)`
(GSI1 swaps partition and sort key). -/
def queryGSI1 (t : Table) (sk pre : String) : List Item :=
  List.filter (fun i => i.SK == sk && beginsWith pre i.PK) t

/-- Query on the entity-type listing index: `EntityType = et`. -/
def queryEntityTypeIndex (t : Table) (et : String) : List Item :=
  List.filter (fun i => i.EntityType == et) t

/-- `createItem` (`dynamodb_rbac.go`): `PutItem` with
`ConditionExpression: attribute_not_exists(PK)` — the write happens only if no
item exists at the primary key; otherwise `ErrAlreadyExists` and the table is
untouched.  Returns the (possibly unchanged) table and the error, if any. -/
def createItem (t : Table) (i : Item) : Table × Option RepoError :=
  match getItem t i.PK i.SK with
  | some _ => (t, some RepoError.alreadyExists)
  | none => (putItem t i, none)

/-- `getItemById`: point read, `ErrNotFound` when absent. -/
def getItemById (t : Table) (pk sk : String) : Except RepoError Item :=
  match getItem t pk sk with
  | some i => Except.ok i
  | none => Except.error RepoError.notFound

/-- Domain `User` (`domain/user.go`). -/
structure User where
  ID : String
  DisplayName : String
  Email : String
  CreatedAt : Nat
  UpdatedAt : Nat
deriving DecidableEq, Repr

/-- Domain `Role`. -/
structure Role where
  ID : String
  DisplayName : String
  Description : String
  CreatedAt : Nat
  UpdatedAt : Nat
deriving DecidableEq, Repr

/-- Domain `Permission`. -/
structure Permission where
  ID : String
  DisplayName : String
  Description : String
  CreatedAt : Nat
  UpdatedAt : Nat
deriving DecidableEq, Repr

/-- `userToItem`: PK `USER#id`, SK `METADATA#id`, EntityType `USER`. -/
def userToItem (u : User) : Item :=
  { PK := UserPrefix ++ u.ID
    SK := MetadataPrefix ++ u.ID
    EntityType := EntityTypeUser
    EntityID := u.ID
    DisplayName := u.DisplayName
    Email := u.Email
    Description := ""
    CreatedAt := u.CreatedAt
    UpdatedAt := u.UpdatedAt
    AssignedAt := 0 }

/-- `itemToUser`. -/
def itemToUser (i : Item) : User :=
  { ID := i.EntityID
    DisplayName := i.DisplayName
    Email := i.Email
    CreatedAt := i.CreatedAt
    UpdatedAt := i.UpdatedAt }

/-- `roleToItem` (`role.go`): PK `ROLE#id`, SK `METADATA#id`.  Note: the
source sets `EntityType: EntityTypeUser` here. -/
def roleToItem (r : Role) : Item :=
  { PK := RolePrefix ++ r.ID
    SK := MetadataPrefix ++ r.ID
    EntityType := EntityTypeUser
    EntityID := r.ID
    DisplayName := r.DisplayName
    Email := ""
    Description := r.Description
    CreatedAt := r.CreatedAt
    UpdatedAt := r.UpdatedAt
    AssignedAt := 0 }

/-- `itemToRole`. -/
def itemToRole (i : Item) : Role :=
  { ID := i.EntityID
    DisplayName := i.DisplayName
    Description := i.Description
    CreatedAt := i.CreatedAt
    UpdatedAt := i.UpdatedAt }

/-- `permissionToItem` (`permission.go`): the source builds the PK with
`RolePrefix` (not `PermissionPrefix`), and sets `EntityType: EntityTypeUser`. -/
def permissionToItem (p : Permission) : Item :=
  { PK := RolePrefix ++ p.ID
    SK := MetadataPrefix ++ p.ID
    EntityType := EntityTypeUser
    EntityID := p.ID
    DisplayName := p.DisplayName
    Email := ""
    Description := p.Description
    CreatedAt := p.CreatedAt
    UpdatedAt := p.UpdatedAt
    AssignedAt := 0 }

/-- `itemToPermission`. -/
def itemToPermission (i : Item) : Permission :=
  { ID := i.EntityID
    DisplayName := i.DisplayName
    Description := i.Description
    CreatedAt := i.CreatedAt
    UpdatedAt := i.UpdatedAt }

/-- Repo `CreateUser`: stamps CreatedAt/UpdatedAt with the current time
(`now`), then conditional create. -/
def CreateUser (t : Table) (now : Nat) (u : User) : Table × Option RepoError :=
  createItem t (userToItem { u with CreatedAt := now, UpdatedAt := now })

/-- Repo `GetUserByID`: reads (`USER#id`, `METADATA#id`). -/
def GetUserByID (t : Table) (id : String) : Except RepoError User :=
  match getItemById t (UserPrefix ++ id) (MetadataPrefix ++ id) with
  | Except.ok i => Except.ok (itemToUser i)
  | Except.error e => Except.error e

/-- Repo `CreateRole`. -/
def CreateRole (t : Table) (now : Nat) (r : Role) : Table × Option RepoError :=
  createItem t (roleToItem { r with CreatedAt := now, UpdatedAt := now })

/-- Repo `GetRoleByID`: reads (`ROLE#id`, `METADATA#id`). -/
def GetRoleByID (t : Table) (id : String) : Except RepoError Role :=
  match getItemById t (RolePrefix ++ id) (MetadataPrefix ++ id) with
  | Except.ok i => Except.ok (itemToRole i)
  | Except.error e => Except.error e

/-- Repo `CreatePermission`: note it persists via `permissionToItem`, whose
partition key uses `RolePrefix`. -/
def CreatePermission (t : Table) (now : Nat) (p : Permission) : Table × Option RepoError :=
  createItem t (permissionToItem { p with CreatedAt := now, UpdatedAt := now })

/-- Repo `GetPermissionByID`: reads (`PERMISSION#id`, `METADATA#id`). -/
def GetPermissionByID (t : Table) (id : String) : Except RepoError Permission :=
  match getItemById t (PermissionPrefix ++ id) (MetadataPrefix ++ id) with
  | Except.ok i => Except.ok (itemToPermission i)
  | Except.error e => Except.error e

/-- Repo `ListAllRoles`: a TODO stub in the source — returns the empty slice
unconditionally. -/
def ListAllRoles (_t : Table) : Except RepoError (List Role) :=
  Except.ok []

/-- Repo `AssignPermissionToRole`: a TODO stub in the source — writes nothing
and returns nil. -/
def AssignPermissionToRole (t : Table) (_roleID _permissionID : String) :
    Table × Option RepoError :=
  (t, none)

/-- Repo `GetRolePermissions`: a TODO stub in the source — returns the empty
slice unconditionally. -/
def GetRolePermissions (_t : Table) (_roleID : String) : Except RepoError (List Permission) :=
  Except.ok []

/-- Repo `ListAllPermissions`: a TODO stub in the source — returns the empty
slice unconditionally. -/
def ListAllPermissions (_t : Table) : Except RepoError (List Permission) :=
  Except.ok []

/-- The edge record written by `AssignRoleToUser`: PK `USER#userID`,
SK `ROLE#roleID`, EntityType `UserRoleAssignment`, AssignedAt stamped. -/
def userRoleEdgeItem (now : Nat) (userID roleID : String) : Item :=
  { PK := UserPrefix ++ userID
    SK := RolePrefix ++ roleID
    EntityType := "UserRoleAssignment"
    EntityID := ""
    DisplayName := ""
    Email := ""
    Description := ""
    CreatedAt := 0
    UpdatedAt := 0
    AssignedAt := now }

/-- Repo `AssignRoleToUser`: an unconditional `PutItem` of the edge record. -/
def AssignRoleToUser (t : Table) (now : Nat) (userID roleID : String) :
    Table × Option RepoError :=
  (putItem t (userRoleEdgeItem now userID roleID), none)

/-- Repo `RemoveRoleFromUser`: `DeleteItem` of the edge record. -/
def RemoveRoleFromUser (t : Table) (userID roleID : String) : Table × Option RepoError :=
  (deleteItem t (UserPrefix ++ userID) (RolePrefix ++ roleID), none)

/-- The per-edge resolution step inside `GetUserRoles`: take the role id from
the sort key (`base.SK[len(RolePrefix):]`), fetch the role metadata, and skip
the edge (with a logged warning) when the fetch fails. -/
def resolveRoleEdge (t : Table) (i : Item) : Option Role :=
  (GetRoleByID t (String.drop i.SK RolePrefix.length)).toOption

/-- `GetUserRoles` result list: query `PK = USER#userID AND
begins_with(SK, ROLE#)`, then resolve each edge to its role metadata. -/
def userRolesList (t : Table) (userID : String) : List Role :=
  List.filterMap (resolveRoleEdge t) (queryPK t (UserPrefix ++ userID) RolePrefix)

/-- Repo `GetUserRoles` (always `ok` in the pure model: the only error path in
the source is an I/O failure of the paginated query). -/
def GetUserRoles (t : Table) (userID : String) : Except RepoError (List Role) :=
  Except.ok (userRolesList t userID)

/-- The per-edge resolution step inside `ListUsersInRole`: take the user id
from the partition key (`base.PK[len(UserPrefix):]`), fetch the user metadata,
and skip the edge when the fetch fails. -/
def resolveUserEdge (t : Table) (i : Item) : Option User :=
  (GetUserByID t (String.drop i.PK UserPrefix.length)).toOption

/-- `ListUsersInRole` result list: GSI1 query `SK = ROLE#roleID AND
begins_with(PK, USER#)`, then resolve each edge to its user metadata. -/
def usersInRoleList (t : Table) (roleID : String) : List User :=
  List.filterMap (resolveUserEdge t) (queryGSI1 t (RolePrefix ++ roleID) UserPrefix)

/-- Repo `ListUsersInRole`. -/
def ListUsersInRole (t : Table) (roleID : String) : Except RepoError (List User) :=
  Except.ok (usersInRoleList t roleID)

/-- The per-row step inside `ListAllUsers`: unmarshal the row, then fetch the
full user via `GetUserByID` on the row's `EntityID`; rows whose lookup fails
are skipped. -/
def listAllUsersRow (t : Table) (i : Item) : Option User :=
  (GetUserByID t i.EntityID).toOption

/-- `ListAllUsers` result list: entity-type index query `EntityType = USER`,
then a follow-up `GetUserByID` per row. -/
def listAllUsersList (t : Table) : List User :=
  List.filterMap (listAllUsersRow t) (queryEntityTypeIndex t EntityTypeUser)

/-- Repo `ListAllUsers`. -/
def ListAllUsers (t : Table) : Except RepoError (List User) :=
  Except.ok (listAllUsersList t)

/-! ## Service layer (`rbac_service.go`) -/

/-- Service `CreateUser`: identity is `"user-" + email` ("Simplistic ID
generation"), then delegate to the repo (which stamps the timestamps). -/
def serviceCreateUser (t : Table) (now : Nat) (displayName email : String) :
    Table × Except RepoError User :=
  let userID := "user-" ++ email
  let u : User :=
    { ID := userID, DisplayName := displayName, Email := email
      CreatedAt := now, UpdatedAt := now }
  match CreateUser t now u with
  | (t2, none) => (t2, Except.ok u)
  | (t2, some e) => (t2, Except.error e)

/-- Service `CreateRole`: identity is `"role-" + displayName`. -/
def serviceCreateRole (t : Table) (now : Nat) (displayName description : String) :
    Table × Except RepoError Role :=
  let roleID := "role-" ++ displayName
  let r : Role :=
    { ID := roleID, DisplayName := displayName, Description := description
      CreatedAt := now, UpdatedAt := now }
  match CreateRole t now r with
  | (t2, none) => (t2, Except.ok r)
  | (t2, some e) => (t2, Except.error e)

/-- Service `CreatePermission`: the permission id is caller-provided. -/
def serviceCreatePermission (t : Table) (now : Nat) (id displayName description : String) :
    Table × Except RepoError Permission :=
  let p : Permission :=
    { ID := id, DisplayName := displayName, Description := description
      CreatedAt := now, UpdatedAt := now }
  match CreatePermission t now p with
  | (t2, none) => (t2, Except.ok p)
  | (t2, some e) => (t2, Except.error e)

/-- Service `AssignRoleToUser`: checks the user and the role exist, then
delegates to the repo edge write. -/
def serviceAssignRoleToUser (t : Table) (now : Nat) (userID roleID : String) :
    Table × Option RepoError :=
  match GetUserByID t userID with
  | Except.error e => (t, some e)
  | Except.ok _ =>
    match GetRoleByID t roleID with
    | Except.error e => (t, some e)
    | Except.ok _ => AssignRoleToUser t now userID roleID

/-- Service `RemoveRoleFromUser`: delegates straight to the repo delete. -/
def serviceRemoveRoleFromUser (t : Table) (userID roleID : String) :
    Table × Option RepoError :=
  RemoveRoleFromUser t userID roleID

/-- Service `AssignPermissionToRole`: checks the role and the permission
exist, then delegates to the repo (a TODO stub). -/
def serviceAssignPermissionToRole (t : Table) (roleID permissionID : String) :
    Table × Option RepoError :=
  match GetRoleByID t roleID with
  | Except.error e => (t, some e)
  | Except.ok _ =>
    match GetPermissionByID t permissionID with
    | Except.error e => (t, some e)
    | Except.ok _ => AssignPermissionToRole t roleID permissionID

/-- Service `UserHasPermission`: fetch the user's roles (`ErrNotFound` maps to
`(false, nil)`), return `(false, nil)` on zero roles, otherwise union each
role's permissions (roles whose permission fetch fails are skipped) and test
membership of the target permission. -/
def UserHasPermission (t : Table) (userID targetPermissionID : String) :
    Except RepoError Bool :=
  match GetUserRoles t userID with
  | Except.error e =>
    if e = RepoError.notFound then Except.ok false else Except.error e
  | Except.ok roles =>
    if roles.length = 0 then
      Except.ok false
    else
      let userPermissions := roles.foldl
        (fun acc role =>
          match GetRolePermissions t role.ID with
          | Except.ok ps => acc ++ List.map Permission.ID ps
          | Except.error _ => acc)
        ([] : List String)
      Except.ok (userPermissions.contains targetPermissionID)

/-- Recognizes a user-role edge record by its key shape: partition key
`USER#...` and sort key `ROLE#...`. -/
def isUserRoleEdge (i : Item) : Bool :=
  beginsWith UserPrefix i.PK && beginsWith RolePrefix i.SK

/-- Referential well-formedness of a table: every user-role edge record's
endpoints resolve — the user metadata and the role metadata under the ids
embedded in the edge's key exist and carry those ids.  States reachable
through the service layer satisfy this: `serviceAssignRoleToUser` writes an
edge only after `GetUserByID` and `GetRoleByID` both succeed, metadata
records store their own id in `EntityID`, and no operation deletes
metadata. -/
def WellFormed (t : Table) : Prop :=
  ∀ i ∈ t, isUserRoleEdge i = true →
    (GetUserByID t (String.drop i.PK UserPrefix.length)).toOption.any
        (fun u => u.ID == String.drop i.PK UserPrefix.length) = true
    ∧ (GetRoleByID t (String.drop i.SK RolePrefix.length)).toOption.any
        (fun r => r.ID == String.drop i.SK RolePrefix.length) = true

/-! ## Helper lemmas about strings and the table model -/

theorem isPrefixOf_append_char (l m : List Char) : l.isPrefixOf (l ++ m) = true := by
  induction l with
  | nil => simp
  | cons a as ih => simp [List.isPrefixOf_cons₂, ih]

theorem isPrefixOf_exists_char : ∀ {l m : List Char}, l.isPrefixOf m = true → ∃ r, m = l ++ r := by
  intro l
  induction l with
  | nil => intro m _; exact ⟨m, rfl⟩
  | cons a as ih =>
    intro m h
    cases m with
    | nil => simp [List.isPrefixOf] at h
    | cons b bs =>
      rw [List.isPrefixOf_cons₂, Bool.and_eq_true, beq_iff_eq] at h
      obtain ⟨rfl, h2⟩ := h
      obtain ⟨r, rfl⟩ := ih h2
      exact ⟨r, rfl⟩

theorem beginsWith_append (p s : String) : beginsWith p (p ++ s) = true := by
  unfold beginsWith
  rw [String.data_append]
  exact isPrefixOf_append_char _ _

theorem beginsWith_exists {p x : String} (h : beginsWith p x = true) :
    ∃ s : String, x = p ++ s := by
  obtain ⟨r, hr⟩ := isPrefixOf_exists_char h
  refine ⟨⟨r⟩, ?_⟩
  apply String.ext
  rw [String.data_append, hr]

theorem strDrop_append (p s : String) : (p ++ s).drop p.length = s := by
  rw [String.drop_eq, String.data_append]
  have h : p.length = p.data.length := rfl
  rw [h, List.drop_left]

theorem strAppend_ne_of_head (c d : Char) {p q : String}
    (hp : p.data.head? = some c) (hq : q.data.head? = some d) (h : c ≠ d)
    (r x : String) : p ++ r ≠ q ++ x := by
  intro heq
  have hdata : (p ++ r).data = (q ++ x).data := by rw [heq]
  rw [String.data_append, String.data_append] at hdata
  cases hcp : p.data with
  | nil => rw [hcp] at hp; simp at hp
  | cons a as =>
    cases hcq : q.data with
    | nil => rw [hcq] at hq; simp at hq
    | cons b bs =>
      rw [hcp] at hp; rw [hcq] at hq
      simp at hp hq
      rw [hcp, hcq] at hdata
      simp at hdata
      exact h (hp ▸ hq ▸ hdata.1)

/-- A user-role edge's sort key (`ROLE#...`) is never a metadata sort key
(`METADATA#...`). -/
theorem roleSK_ne_metadataSK (r x : String) : RolePrefix ++ r ≠ MetadataPrefix ++ x :=
  strAppend_ne_of_head 'R' 'M' (by decide) (by decide) (by decide) r x

theorem keyMatch_self (i : Item) : keyMatch i i.PK i.SK = true := by
  simp [keyMatch]

/-- `find?` is unaffected by filtering out elements the search predicate
cannot match. -/
theorem find?_filter_irrel {α : Type} (q p : α → Bool) :
    ∀ (t : List α), (∀ j, q j = true → p j = true) →
    List.find? q (List.filter p t) = List.find? q t := by
  intro t h
  induction t with
  | nil => rfl
  | cons j js ih =>
    cases hq : q j
    · cases hp : p j <;> simp [List.filter_cons, hp, List.find?_cons, hq, ih]
    · have hp := h j hq
      simp [List.filter_cons, hp, List.find?_cons, hq]

/-- Reading back the key just written. -/
theorem getItem_putItem_self (t : Table) (i : Item) :
    getItem (putItem t i) i.PK i.SK = some i := by
  unfold getItem putItem
  rw [List.find?_cons, keyMatch_self i]

/-- A point read at a different primary key is unaffected by a `putItem`. -/
theorem getItem_putItem_ne (t : Table) (i : Item) (pk sk : String)
    (h : ¬(pk = i.PK ∧ sk = i.SK)) : getItem (putItem t i) pk sk = getItem t pk sk := by
  have hkm : keyMatch i pk sk = false := by
    cases hb : keyMatch i pk sk
    · rfl
    · exfalso
      simp only [keyMatch, Bool.and_eq_true, beq_iff_eq] at hb
      exact h ⟨hb.1.symm, hb.2.symm⟩
  unfold getItem putItem
  rw [List.find?_cons, hkm]
  apply find?_filter_irrel
  intro j hq
  simp only [keyMatch, Bool.and_eq_true, beq_iff_eq] at hq
  cases hb : keyMatch j i.PK i.SK
  · simp
  · exfalso
    simp only [keyMatch, Bool.and_eq_true, beq_iff_eq] at hb
    exact h ⟨hq.1 ▸ hb.1 ▸ rfl, hq.2 ▸ hb.2 ▸ rfl⟩

/-- Filtering with a predicate and then with its negation yields nothing. -/
theorem filter_pred_filter_not {α : Type} (p : α → Bool) (l : List α) :
    List.filter p (List.filter (fun a => !(p a)) l) = [] := by
  apply List.filter_eq_nil_iff.mpr
  intro a ha
  have hm := (List.mem_filter.mp ha).2
  simp only [Bool.not_eq_true'] at hm
  simp [hm]

/-- Filtering twice with the same predicate is the same as filtering once. -/
theorem filter_not_key_idem {α : Type} (p : α → Bool) (l : List α) :
    List.filter (fun a => !(p a)) (List.filter (fun a => !(p a)) l)
      = List.filter (fun a => !(p a)) l := by
  rw [List.filter_filter]
  simp

/-- Re-putting an item at the same primary key supersedes the first put:
the table is as if only the second put happened (last write wins). -/
theorem putItem_putItem_same (t : Table) (e1 e2 : Item)
    (hpk : e2.PK = e1.PK) (hsk : e2.SK = e1.SK) :
    putItem (putItem t e1) e2 = putItem t e2 := by
  unfold putItem
  rw [hpk, hsk]
  rw [List.filter_cons]
  rw [keyMatch_self e1]
  simp [filter_not_key_idem (fun j => keyMatch j e1.PK e1.SK) t]

/-- `filterMap` only depends on the values of the function on the list. -/
theorem filterMap_congr_fn {α β : Type} (f g : α → Option β) :
    ∀ (l : List α), (∀ a ∈ l, f a = g a) → l.filterMap f = l.filterMap g := by
  intro l h
  induction l with
  | nil => rfl
  | cons a as ih =>
    rw [List.filterMap_cons, List.filterMap_cons, h a (List.mem_cons_self a as)]
    have ih' := ih (fun b hb => h b (List.mem_cons_of_mem a hb))
    cases g a <;> simp [ih']

/-- A put whose sort key is not a metadata sort key leaves every
`GetRoleByID` read unchanged. -/
theorem getRoleByID_put_irrel (t : Table) (e : Item) (x : String)
    (hne : e.SK ≠ MetadataPrefix ++ x) :
    GetRoleByID (putItem t e) x = GetRoleByID t x := by
  unfold GetRoleByID getItemById
  rw [getItem_putItem_ne t e _ _ (fun hc => hne hc.2.symm)]

/-- A put whose sort key is not a metadata sort key leaves every
`GetUserByID` read unchanged. -/
theorem getUserByID_put_irrel (t : Table) (e : Item) (x : String)
    (hne : e.SK ≠ MetadataPrefix ++ x) :
    GetUserByID (putItem t e) x = GetUserByID t x := by
  unfold GetUserByID getItemById
  rw [getItem_putItem_ne t e _ _ (fun hc => hne hc.2.symm)]

/-- A user-role edge put never changes any role-metadata read. -/
theorem getRoleByID_putEdge (t : Table) (now : Nat) (uID rID x : String) :
    GetRoleByID (putItem t (userRoleEdgeItem now uID rID)) x = GetRoleByID t x :=
  getRoleByID_put_irrel t _ x (roleSK_ne_metadataSK rID x)

/-- Edge resolution inside `GetUserRoles` is unchanged by an edge put. -/
theorem resolveRoleEdge_putEdge (t : Table) (now : Nat) (uID rID : String) (i : Item) :
    resolveRoleEdge (putItem t (userRoleEdgeItem now uID rID)) i = resolveRoleEdge t i := by
  unfold resolveRoleEdge
  rw [getRoleByID_putEdge]

/-- The user-role query against a table with a freshly put edge: the edge is
at the head, the rest is the query over the table with that key filtered out. -/
theorem queryPK_putEdge (t : Table) (now : Nat) (uID rID : String) :
    queryPK (putItem t (userRoleEdgeItem now uID rID)) (UserPrefix ++ uID) RolePrefix
      = userRoleEdgeItem now uID rID
        :: queryPK (List.filter
            (fun j => !(keyMatch j (userRoleEdgeItem now uID rID).PK (userRoleEdgeItem now uID rID).SK)) t)
          (UserPrefix ++ uID) RolePrefix := by
  unfold queryPK putItem
  rw [List.filter_cons]
  have hhead : ((userRoleEdgeItem now uID rID).PK == UserPrefix ++ uID
      && beginsWith RolePrefix (userRoleEdgeItem now uID rID).SK) = true := by
    rw [show (userRoleEdgeItem now uID rID).PK = UserPrefix ++ uID from rfl]
    rw [show (userRoleEdgeItem now uID rID).SK = RolePrefix ++ rID from rfl]
    simp [beginsWith_append]
  rw [hhead]
  simp

/-- Unpack `Option.any`. -/
theorem option_any_exists {α : Type} (p : α → Bool) (o : Option α)
    (h : o.any p = true) : ∃ a, o = some a ∧ p a = true := by
  cases o with
  | none => simp [Option.any] at h
  | some a =>
    refine ⟨a, rfl, ?_⟩
    simpa [Option.any] using h

/-- Read off the predicate from `Option.any` at a known value. -/
theorem option_any_at_some {α : Type} (p : α → Bool) (o : Option α) (a : α)
    (ho : o = some a) (h : o.any p = true) : p a = true := by
  subst ho
  simpa [Option.any] using h

/-! ## Claims -/

/-- C2: for every user with zero assigned roles — no user-role edge record
under the user's partition, which covers a user that does not exist at all —
`UserHasPermission` returns `(false, nil)` for every permission: the check
fails closed without surfacing an error. -/
theorem C2_hasPermission_fails_closed_without_roles (t : Table) (userID p : String)
    (h : ∀ i ∈ t, ¬(i.PK = UserPrefix ++ userID ∧ beginsWith RolePrefix i.SK = true)) :
    UserHasPermission t userID p = Except.ok false := by
  have hq : queryPK t (UserPrefix ++ userID) RolePrefix = [] := by
    apply List.filter_eq_nil_iff.mpr
    intro i hi
    intro hb
    rw [Bool.and_eq_true, beq_iff_eq] at hb
    exact h i hi ⟨hb.1, hb.2⟩
  unfold UserHasPermission GetUserRoles userRolesList
  rw [hq]
  rfl

/-- Witness for C2 on a concrete table: a user metadata record but no edge
records, and an arbitrary permission id. -/
theorem C2_hasPermission_fails_closed_without_roles_witness :
    UserHasPermission [userToItem { ID := "u1", DisplayName := "U", Email := "e", CreatedAt := 0, UpdatedAt := 0 }] "u1" "p1" = Except.ok false :=
  C2_hasPermission_fails_closed_without_roles _ "u1" "p1" (by decide)

/-- C3: the create/get round-trip for permissions fails: `permissionToItem`
writes the record under partition key `ROLE#id` while `GetPermissionByID`
reads `PERMISSION#id`, so a freshly created permission cannot be read back —
on an empty table the create succeeds yet the read returns `ErrNotFound`. -/
theorem C3_permission_roundtrip_broken :
    (permissionToItem { ID := "p1", DisplayName := "Perm", Description := "d", CreatedAt := 3, UpdatedAt := 3 }).PK = RolePrefix ++ "p1"
    ∧ (serviceCreatePermission [] 3 "p1" "Perm" "d").2
        = Except.ok { ID := "p1", DisplayName := "Perm", Description := "d", CreatedAt := 3, UpdatedAt := 3 }
    ∧ GetPermissionByID (serviceCreatePermission [] 3 "p1" "Perm" "d").1 "p1"
        = Except.error RepoError.notFound := by
  decide

/-- C4: for every entity type, creating an entity whose metadata key already
holds a record fails with `AlreadyExists` and returns the table unchanged, so
the stored record keeps all its fields (the conditional write is
existence-guarded, not a blind overwrite). -/
theorem C4_create_existence_guarded (t : Table) (now : Nat)
    (u : User) (r : Role) (p : Permission) (iu ir ip : Item)
    (hu : getItem t (UserPrefix ++ u.ID) (MetadataPrefix ++ u.ID) = some iu)
    (hr : getItem t (RolePrefix ++ r.ID) (MetadataPrefix ++ r.ID) = some ir)
    (hp : getItem t (RolePrefix ++ p.ID) (MetadataPrefix ++ p.ID) = some ip) :
    CreateUser t now u = (t, some RepoError.alreadyExists)
    ∧ CreateRole t now r = (t, some RepoError.alreadyExists)
    ∧ CreatePermission t now p = (t, some RepoError.alreadyExists) := by
  refine ⟨?_, ?_, ?_⟩
  · unfold CreateUser createItem
    have hk : (userToItem { u with CreatedAt := now, UpdatedAt := now }).PK
        = UserPrefix ++ u.ID := rfl
    have hs : (userToItem { u with CreatedAt := now, UpdatedAt := now }).SK
        = MetadataPrefix ++ u.ID := rfl
    rw [hk, hs, hu]
  · unfold CreateRole createItem
    have hk : (roleToItem { r with CreatedAt := now, UpdatedAt := now }).PK
        = RolePrefix ++ r.ID := rfl
    have hs : (roleToItem { r with CreatedAt := now, UpdatedAt := now }).SK
        = MetadataPrefix ++ r.ID := rfl
    rw [hk, hs, hr]
  · unfold CreatePermission createItem
    have hk : (permissionToItem { p with CreatedAt := now, UpdatedAt := now }).PK
        = RolePrefix ++ p.ID := rfl
    have hs : (permissionToItem { p with CreatedAt := now, UpdatedAt := now }).SK
        = MetadataPrefix ++ p.ID := rfl
    rw [hk, hs, hp]

/-- Witness for C4 on a concrete table holding one record of each kind. -/
theorem C4_create_existence_guarded_witness :
    CreateUser [userToItem { ID := "u1", DisplayName := "U", Email := "e", CreatedAt := 1, UpdatedAt := 1 },
        roleToItem { ID := "r1", DisplayName := "R", Description := "", CreatedAt := 1, UpdatedAt := 1 },
        permissionToItem { ID := "p1", DisplayName := "P", Description := "", CreatedAt := 1, UpdatedAt := 1 }]
      9 { ID := "u1", DisplayName := "Other", Email := "o", CreatedAt := 0, UpdatedAt := 0 }
      = ([userToItem { ID := "u1", DisplayName := "U", Email := "e", CreatedAt := 1, UpdatedAt := 1 },
          roleToItem { ID := "r1", DisplayName := "R", Description := "", CreatedAt := 1, UpdatedAt := 1 },
          permissionToItem { ID := "p1", DisplayName := "P", Description := "", CreatedAt := 1, UpdatedAt := 1 }],
         some RepoError.alreadyExists) :=
  (C4_create_existence_guarded _ 9
    { ID := "u1", DisplayName := "Other", Email := "o", CreatedAt := 0, UpdatedAt := 0 }
    { ID := "r1", DisplayName := "R2", Description := "x", CreatedAt := 0, UpdatedAt := 0 }
    { ID := "p1", DisplayName := "P2", Description := "x", CreatedAt := 0, UpdatedAt := 0 }
    (userToItem { ID := "u1", DisplayName := "U", Email := "e", CreatedAt := 1, UpdatedAt := 1 })
    (roleToItem { ID := "r1", DisplayName := "R", Description := "", CreatedAt := 1, UpdatedAt := 1 })
    (permissionToItem { ID := "p1", DisplayName := "P", Description := "", CreatedAt := 1, UpdatedAt := 1 })
    (by decide) (by decide) (by decide)).1

/-- C1: running the spec scenario on the code — create `u1`, `r1`, `p1`;
assign `p1` to `r1`; assign `r1` to `u1` — the permission-to-role assignment
fails with `ErrNotFound` (the permission was persisted under `ROLE#p1` but is
looked up under `PERMISSION#p1`), and `UserHasPermission(u1, p1)` evaluates to
`false` where the claim requires `true`, because `GetRolePermissions` is a
TODO stub returning the empty slice.  (After removing the role it is `false`
as claimed.) -/
theorem C1_scenario_evaluates_false :
    (let t1 := (serviceCreateUser [] 1 "User One" "u1").1
     let t2 := (serviceCreateRole t1 2 "r1" "first role").1
     let t3 := (serviceCreatePermission t2 3 "p1" "Perm One" "d").1
     let t4 := (serviceAssignRoleToUser t3 4 "user-u1" "role-r1").1
     (serviceCreateUser [] 1 "User One" "u1").2.isOk = true
     ∧ (serviceCreateRole t1 2 "r1" "first role").2.isOk = true
     ∧ (serviceCreatePermission t2 3 "p1" "Perm One" "d").2.isOk = true
     ∧ serviceAssignPermissionToRole t3 "role-r1" "p1" = (t3, some RepoError.notFound)
     ∧ (serviceAssignRoleToUser t3 4 "user-u1" "role-r1").2 = none
     ∧ (userRolesList t4 "user-u1").length = 1
     ∧ UserHasPermission t4 "user-u1" "p1" = Except.ok false
     ∧ UserHasPermission (serviceRemoveRoleFromUser t4 "user-u1" "role-r1").1 "user-u1" "p1"
         = Except.ok false) := by
  decide

/-- C6: the list-all operations for roles and permissions are TODO stubs that
return the empty sequence unconditionally: after successfully creating a role
and a permission (both records present in the table), `ListAllRoles` and
`ListAllPermissions` still return `[]`.  (The claim's required behavior holds
only for `ListAllUsers`.) -/
theorem C6_list_all_stubs_return_empty :
    (let cr := serviceCreateRole [] 1 "r1" "d"
     let cp := serviceCreatePermission cr.1 2 "p1" "P" "d"
     cr.2.isOk = true
     ∧ cp.2.isOk = true
     ∧ (getItem cp.1 (RolePrefix ++ "role-r1") (MetadataPrefix ++ "role-r1")).isSome = true
     ∧ (getItem cp.1 (RolePrefix ++ "p1") (MetadataPrefix ++ "p1")).isSome = true
     ∧ ListAllRoles cp.1 = Except.ok []
     ∧ ListAllPermissions cp.1 = Except.ok []) := by
  decide

/-- C7 counterexample: `CreateUser` with an email containing the key
separator `#` succeeds and persists a record — no `InvalidIdentity`-style
rejection happens anywhere on the key-encoding path, refuting the claim. -/
theorem C7_counterexample_separator_accepted :
    "a#b".data.contains '#' = true
    ∧ (serviceCreateUser [] 5 "N" "a#b").2
        = Except.ok { ID := "user-a#b", DisplayName := "N", Email := "a#b", CreatedAt := 5, UpdatedAt := 5 }
    ∧ (getItem (serviceCreateUser [] 5 "N" "a#b").1 ("USER#" ++ "user-a#b") ("METADATA#" ++ "user-a#b")).isSome
        = true := by
  decide

/-- C7 amended: the key-encoding path performs no identifier validation at
all: for any email — even one containing the separator `#` — if no record
occupies the derived metadata key, `CreateUser` succeeds and persists the
record built from the concatenated key, rather than failing with an
`InvalidIdentity`-style error. -/
theorem C7_amended_no_separator_validation (t : Table) (now : Nat) (name email : String)
    (_hsep : email.data.contains '#' = true)
    (hfree : getItem t (UserPrefix ++ ("user-" ++ email)) (MetadataPrefix ++ ("user-" ++ email)) = none) :
    (serviceCreateUser t now name email).2
      = Except.ok { ID := "user-" ++ email, DisplayName := name, Email := email, CreatedAt := now, UpdatedAt := now }
    ∧ getItem (serviceCreateUser t now name email).1
        (UserPrefix ++ ("user-" ++ email)) (MetadataPrefix ++ ("user-" ++ email))
      = some (userToItem { ID := "user-" ++ email, DisplayName := name, Email := email, CreatedAt := now, UpdatedAt := now }) := by
  unfold serviceCreateUser CreateUser createItem
  simp only
  rw [show (userToItem { ID := "user-" ++ email, DisplayName := name, Email := email, CreatedAt := now, UpdatedAt := now }).PK = UserPrefix ++ ("user-" ++ email) from rfl]
  rw [show (userToItem { ID := "user-" ++ email, DisplayName := name, Email := email, CreatedAt := now, UpdatedAt := now }).SK = MetadataPrefix ++ ("user-" ++ email) from rfl]
  rw [hfree]
  simp only
  refine ⟨trivial, ?_⟩
  rw [show UserPrefix ++ ("user-" ++ email) = (userToItem { ID := "user-" ++ email, DisplayName := name, Email := email, CreatedAt := now, UpdatedAt := now }).PK from rfl]
  rw [show MetadataPrefix ++ ("user-" ++ email) = (userToItem { ID := "user-" ++ email, DisplayName := name, Email := email, CreatedAt := now, UpdatedAt := now }).SK from rfl]
  exact getItem_putItem_self t _

/-- Witness for C7 amended, at the separator-carrying email `a#b` on the
empty table. -/
theorem C7_amended_no_separator_validation_witness :
    (serviceCreateUser [] 5 "N" "a#b").2
      = Except.ok { ID := "user-" ++ "a#b", DisplayName := "N", Email := "a#b", CreatedAt := 5, UpdatedAt := 5 }
    ∧ getItem (serviceCreateUser [] 5 "N" "a#b").1
        (UserPrefix ++ ("user-" ++ "a#b")) (MetadataPrefix ++ ("user-" ++ "a#b"))
      = some (userToItem { ID := "user-" ++ "a#b", DisplayName := "N", Email := "a#b", CreatedAt := 5, UpdatedAt := 5 }) :=
  C7_amended_no_separator_validation [] 5 "N" "a#b" (by decide) (by decide)

/-- C10: the generated user identity is `"user-" + email`, a function of the
email alone; a second `CreateUser` with the same email therefore targets the
same metadata key and fails with `AlreadyExists` even when the display name
and timestamps differ, leaving the table unchanged. -/
theorem C10_identity_from_email_only (t : Table) (now1 now2 : Nat)
    (n1 n2 email : String) (u1 : User)
    (h : (serviceCreateUser t now1 n1 email).2 = Except.ok u1) :
    u1.ID = "user-" ++ email
    ∧ (serviceCreateUser (serviceCreateUser t now1 n1 email).1 now2 n2 email).2
        = Except.error RepoError.alreadyExists
    ∧ (serviceCreateUser (serviceCreateUser t now1 n1 email).1 now2 n2 email).1
        = (serviceCreateUser t now1 n1 email).1 := by
  unfold serviceCreateUser CreateUser createItem at *
  simp only at h ⊢
  cases hg : getItem t (UserPrefix ++ ("user-" ++ email)) (MetadataPrefix ++ ("user-" ++ email)) with
  | some i =>
    exfalso
    rw [show (userToItem { ID := "user-" ++ email, DisplayName := n1, Email := email, CreatedAt := now1, UpdatedAt := now1 }).PK = UserPrefix ++ ("user-" ++ email) from rfl] at h
    rw [show (userToItem { ID := "user-" ++ email, DisplayName := n1, Email := email, CreatedAt := now1, UpdatedAt := now1 }).SK = MetadataPrefix ++ ("user-" ++ email) from rfl] at h
    rw [hg] at h
    simp at h
  | none =>
    rw [show (userToItem { ID := "user-" ++ email, DisplayName := n1, Email := email, CreatedAt := now1, UpdatedAt := now1 }).PK = UserPrefix ++ ("user-" ++ email) from rfl] at h ⊢
    rw [show (userToItem { ID := "user-" ++ email, DisplayName := n1, Email := email, CreatedAt := now1, UpdatedAt := now1 }).SK = MetadataPrefix ++ ("user-" ++ email) from rfl] at h ⊢
    rw [hg] at h ⊢
    simp only at h ⊢
    refine ⟨?_, ?_, ?_⟩
    · cases h' : h
      rfl
    · rw [show (userToItem { ID := "user-" ++ email, DisplayName := n2, Email := email, CreatedAt := now2, UpdatedAt := now2 }).PK = UserPrefix ++ ("user-" ++ email) from rfl]
      rw [show (userToItem { ID := "user-" ++ email, DisplayName := n2, Email := email, CreatedAt := now2, UpdatedAt := now2 }).SK = MetadataPrefix ++ ("user-" ++ email) from rfl]
      rw [show UserPrefix ++ ("user-" ++ email) = (userToItem { ID := "user-" ++ email, DisplayName := n1, Email := email, CreatedAt := now1, UpdatedAt := now1 }).PK from rfl]
      rw [show MetadataPrefix ++ ("user-" ++ email) = (userToItem { ID := "user-" ++ email, DisplayName := n1, Email := email, CreatedAt := now1, UpdatedAt := now1 }).SK from rfl]
      rw [getItem_putItem_self]
    · rw [show (userToItem { ID := "user-" ++ email, DisplayName := n2, Email := email, CreatedAt := now2, UpdatedAt := now2 }).PK = UserPrefix ++ ("user-" ++ email) from rfl]
      rw [show (userToItem { ID := "user-" ++ email, DisplayName := n2, Email := email, CreatedAt := now2, UpdatedAt := now2 }).SK = MetadataPrefix ++ ("user-" ++ email) from rfl]
      rw [show UserPrefix ++ ("user-" ++ email) = (userToItem { ID := "user-" ++ email, DisplayName := n1, Email := email, CreatedAt := now1, UpdatedAt := now1 }).PK from rfl]
      rw [show MetadataPrefix ++ ("user-" ++ email) = (userToItem { ID := "user-" ++ email, DisplayName := n1, Email := email, CreatedAt := now1, UpdatedAt := now1 }).SK from rfl]
      rw [getItem_putItem_self]

/-- Witness for C10 on the empty table with two different display names. -/
theorem C10_identity_from_email_only_witness :
    ({ ID := "user-e", DisplayName := "A", Email := "e", CreatedAt := 1, UpdatedAt := 1 } : User).ID
      = "user-" ++ "e"
    ∧ (serviceCreateUser (serviceCreateUser [] 1 "A" "e").1 2 "B" "e").2
        = Except.error RepoError.alreadyExists
    ∧ (serviceCreateUser (serviceCreateUser [] 1 "A" "e").1 2 "B" "e").1
        = (serviceCreateUser [] 1 "A" "e").1 :=
  C10_identity_from_email_only [] 1 2 "A" "B" "e"
    { ID := "user-e", DisplayName := "A", Email := "e", CreatedAt := 1, UpdatedAt := 1 } (by decide)

/-- C9: role and permission metadata records carry EntityType `USER`, the
same discriminator as user metadata, so the entity-type listing index does not
separate the kinds: a role metadata row in the table matches `ListAllUsers`'s
index query, its per-row contribution is exactly the result of the follow-up
`GetUserByID` on its id — dropped precisely when that lookup fails — and when
the lookup happens to succeed the row is not excluded at all. -/
theorem C9_entity_type_discriminator_shared (t : Table) (role : Role)
    (perm : Permission) (user : User) (u' : User)
    (hmem : roleToItem role ∈ t)
    (hok : GetUserByID t role.ID = Except.ok u') :
    (roleToItem role).EntityType = EntityTypeUser
    ∧ (permissionToItem perm).EntityType = EntityTypeUser
    ∧ (userToItem user).EntityType = EntityTypeUser
    ∧ roleToItem role ∈ queryEntityTypeIndex t EntityTypeUser
    ∧ listAllUsersRow t (roleToItem role) = (GetUserByID t role.ID).toOption
    ∧ u' ∈ listAllUsersList t := by
  refine ⟨rfl, rfl, rfl, ?_, rfl, ?_⟩
  · unfold queryEntityTypeIndex
    apply List.mem_filter.mpr
    exact ⟨hmem, by simp [roleToItem, EntityTypeUser]⟩
  · unfold listAllUsersList
    apply List.mem_filterMap.mpr
    refine ⟨roleToItem role, ?_, ?_⟩
    · unfold queryEntityTypeIndex
      apply List.mem_filter.mpr
      exact ⟨hmem, by simp [roleToItem, EntityTypeUser]⟩
    · unfold listAllUsersRow
      rw [show (roleToItem role).EntityID = role.ID from rfl, hok]
      rfl

/-- Witness for C9: a table holding a role metadata record with id `x` and —
for the inclusion conjunct — a user metadata record under the same id. -/
theorem C9_entity_type_discriminator_shared_witness :
    (roleToItem { ID := "x", DisplayName := "R", Description := "", CreatedAt := 1, UpdatedAt := 1 }).EntityType = EntityTypeUser
    ∧ (permissionToItem { ID := "p", DisplayName := "P", Description := "", CreatedAt := 1, UpdatedAt := 1 }).EntityType = EntityTypeUser
    ∧ (userToItem { ID := "u", DisplayName := "U", Email := "e", CreatedAt := 1, UpdatedAt := 1 }).EntityType = EntityTypeUser
    ∧ roleToItem { ID := "x", DisplayName := "R", Description := "", CreatedAt := 1, UpdatedAt := 1 }
        ∈ queryEntityTypeIndex [roleToItem { ID := "x", DisplayName := "R", Description := "", CreatedAt := 1, UpdatedAt := 1 },
            userToItem { ID := "x", DisplayName := "X", Email := "xe", CreatedAt := 2, UpdatedAt := 2 }] EntityTypeUser
    ∧ listAllUsersRow [roleToItem { ID := "x", DisplayName := "R", Description := "", CreatedAt := 1, UpdatedAt := 1 },
          userToItem { ID := "x", DisplayName := "X", Email := "xe", CreatedAt := 2, UpdatedAt := 2 }]
        (roleToItem { ID := "x", DisplayName := "R", Description := "", CreatedAt := 1, UpdatedAt := 1 })
        = (GetUserByID [roleToItem { ID := "x", DisplayName := "R", Description := "", CreatedAt := 1, UpdatedAt := 1 },
            userToItem { ID := "x", DisplayName := "X", Email := "xe", CreatedAt := 2, UpdatedAt := 2 }] "x").toOption
    ∧ { ID := "x", DisplayName := "X", Email := "xe", CreatedAt := 2, UpdatedAt := 2 }
        ∈ listAllUsersList [roleToItem { ID := "x", DisplayName := "R", Description := "", CreatedAt := 1, UpdatedAt := 1 },
            userToItem { ID := "x", DisplayName := "X", Email := "xe", CreatedAt := 2, UpdatedAt := 2 }] :=
  C9_entity_type_discriminator_shared _
    { ID := "x", DisplayName := "R", Description := "", CreatedAt := 1, UpdatedAt := 1 }
    { ID := "p", DisplayName := "P", Description := "", CreatedAt := 1, UpdatedAt := 1 }
    { ID := "u", DisplayName := "U", Email := "e", CreatedAt := 1, UpdatedAt := 1 }
    { ID := "x", DisplayName := "X", Email := "xe", CreatedAt := 2, UpdatedAt := 2 }
    (by decide) (by decide)

/-- C5: `AssignRoleToUser` is an idempotent upsert: calling it twice yields
the same table as calling it once (last write wins on `AssignedAt`), the
resulting table holds exactly one edge record for the (user, role) pair, and
the number of roles `GetUserRoles` returns is the same after the repeated
call as after the first. -/
theorem C5_assign_role_idempotent (t : Table) (now1 now2 : Nat) (uID rID : String) :
    (AssignRoleToUser (AssignRoleToUser t now1 uID rID).1 now2 uID rID).1
      = (AssignRoleToUser t now2 uID rID).1
    ∧ (List.filter (fun i => keyMatch i (UserPrefix ++ uID) (RolePrefix ++ rID))
        (AssignRoleToUser (AssignRoleToUser t now1 uID rID).1 now2 uID rID).1).length = 1
    ∧ (userRolesList (AssignRoleToUser (AssignRoleToUser t now1 uID rID).1 now2 uID rID).1 uID).length
      = (userRolesList (AssignRoleToUser t now1 uID rID).1 uID).length := by
  have e1def : (AssignRoleToUser t now1 uID rID).1 = putItem t (userRoleEdgeItem now1 uID rID) := rfl
  have e2def : ∀ s : Table, (AssignRoleToUser s now2 uID rID).1
      = putItem s (userRoleEdgeItem now2 uID rID) := fun _ => rfl
  have hsame : putItem (putItem t (userRoleEdgeItem now1 uID rID)) (userRoleEdgeItem now2 uID rID)
      = putItem t (userRoleEdgeItem now2 uID rID) :=
    putItem_putItem_same t _ _ rfl rfl
  refine ⟨?_, ?_, ?_⟩
  · rw [e1def, e2def, hsame, e2def]
  · rw [e1def, e2def, hsame]
    unfold putItem
    rw [List.filter_cons]
    have hk2 : keyMatch (userRoleEdgeItem now2 uID rID) (UserPrefix ++ uID) (RolePrefix ++ rID) = true := by
      simp [keyMatch, userRoleEdgeItem]
    rw [hk2]
    have hrest : List.filter (fun i => keyMatch i (UserPrefix ++ uID) (RolePrefix ++ rID))
        (List.filter (fun j => !(keyMatch j (userRoleEdgeItem now2 uID rID).PK (userRoleEdgeItem now2 uID rID).SK)) t)
        = [] := by
      rw [show (userRoleEdgeItem now2 uID rID).PK = UserPrefix ++ uID from rfl]
      rw [show (userRoleEdgeItem now2 uID rID).SK = RolePrefix ++ rID from rfl]
      exact filter_pred_filter_not _ t
    simp [hrest]
  · rw [e1def, e2def, hsame]
    have hlists : userRolesList (putItem t (userRoleEdgeItem now2 uID rID)) uID
        = userRolesList (putItem t (userRoleEdgeItem now1 uID rID)) uID := by
      unfold userRolesList
      rw [queryPK_putEdge t now2 uID rID, queryPK_putEdge t now1 uID rID]
      rw [List.filterMap_cons, List.filterMap_cons]
      have hkeys : (fun j => !(keyMatch j (userRoleEdgeItem now2 uID rID).PK (userRoleEdgeItem now2 uID rID).SK))
          = (fun j => !(keyMatch j (userRoleEdgeItem now1 uID rID).PK (userRoleEdgeItem now1 uID rID).SK)) := rfl
      rw [hkeys]
      have hhead : resolveRoleEdge (putItem t (userRoleEdgeItem now2 uID rID)) (userRoleEdgeItem now2 uID rID)
          = resolveRoleEdge (putItem t (userRoleEdgeItem now1 uID rID)) (userRoleEdgeItem now1 uID rID) := by
        rw [resolveRoleEdge_putEdge, resolveRoleEdge_putEdge]
        unfold resolveRoleEdge
        rfl
      have htail : List.filterMap (resolveRoleEdge (putItem t (userRoleEdgeItem now2 uID rID)))
          (queryPK (List.filter (fun j => !(keyMatch j (userRoleEdgeItem now1 uID rID).PK (userRoleEdgeItem now1 uID rID).SK)) t) (UserPrefix ++ uID) RolePrefix)
          = List.filterMap (resolveRoleEdge (putItem t (userRoleEdgeItem now1 uID rID)))
          (queryPK (List.filter (fun j => !(keyMatch j (userRoleEdgeItem now1 uID rID).PK (userRoleEdgeItem now1 uID rID).SK)) t) (UserPrefix ++ uID) RolePrefix) := by
        apply filterMap_congr_fn
        intro a _
        rw [resolveRoleEdge_putEdge, resolveRoleEdge_putEdge]
      rw [hhead, htail]
    rw [hlists]

/-- C8: on a referentially well-formed table (the invariant maintained by the
service layer), the reverse lookup is exactly the forward lookup: a user id
appears in `ListUsersInRole(R)` precisely when an edge (U, R) is stored,
which is precisely when R's id appears in `GetUserRoles(U)` — so the two
return the same set of (user, role) pairs. -/
theorem C8_reverse_forward_consistent (t : Table) (uID rID : String)
    (hwf : WellFormed t) :
    ((∃ u ∈ usersInRoleList t rID, u.ID = uID) ↔
      (∃ i ∈ t, i.PK = UserPrefix ++ uID ∧ i.SK = RolePrefix ++ rID))
    ∧ ((∃ r ∈ userRolesList t uID, r.ID = rID) ↔
      (∃ i ∈ t, i.PK = UserPrefix ++ uID ∧ i.SK = RolePrefix ++ rID)) := by
  constructor
  · constructor
    · rintro ⟨u, hu, huid⟩
      obtain ⟨i, hiq, hres⟩ := List.mem_filterMap.mp hu
      have hflt := List.mem_filter.mp hiq
      obtain ⟨hit, hpred⟩ := hflt
      rw [Bool.and_eq_true, beq_iff_eq] at hpred
      obtain ⟨hsk, hbw⟩ := hpred
      obtain ⟨s, hpk⟩ := beginsWith_exists hbw
      have hedge : isUserRoleEdge i = true := by
        unfold isUserRoleEdge
        rw [hpk, hsk]
        simp [beginsWith_append]
      have hdrop : String.drop i.PK UserPrefix.length = s := by
        rw [hpk, strDrop_append]
      have hany := (hwf i hit hedge).1
      unfold resolveUserEdge at hres
      have hpid := option_any_at_some _ _ u hres hany
      rw [beq_iff_eq] at hpid
      rw [hdrop] at hpid
      refine ⟨i, hit, ?_, hsk⟩
      rw [hpk, ← hpid, huid]
    · rintro ⟨i, hit, hpk, hsk⟩
      have hedge : isUserRoleEdge i = true := by
        unfold isUserRoleEdge
        rw [hpk, hsk]
        simp [beginsWith_append]
      have hany := (hwf i hit hedge).1
      have hdrop : String.drop i.PK UserPrefix.length = uID := by
        rw [hpk, strDrop_append]
      rw [hdrop] at hany
      obtain ⟨u, hu, hpid⟩ := option_any_exists _ _ hany
      rw [beq_iff_eq] at hpid
      refine ⟨u, ?_, hpid⟩
      apply List.mem_filterMap.mpr
      refine ⟨i, ?_, ?_⟩
      · apply List.mem_filter.mpr
        refine ⟨hit, ?_⟩
        rw [Bool.and_eq_true, beq_iff_eq]
        exact ⟨hsk, by rw [hpk]; exact beginsWith_append _ _⟩
      · unfold resolveUserEdge
        rw [hdrop]
        exact hu
  · constructor
    · rintro ⟨r, hr, hrid⟩
      obtain ⟨i, hiq, hres⟩ := List.mem_filterMap.mp hr
      have hflt := List.mem_filter.mp hiq
      obtain ⟨hit, hpred⟩ := hflt
      rw [Bool.and_eq_true, beq_iff_eq] at hpred
      obtain ⟨hpk, hbw⟩ := hpred
      obtain ⟨s, hsk⟩ := beginsWith_exists hbw
      have hedge : isUserRoleEdge i = true := by
        unfold isUserRoleEdge
        rw [hpk, hsk]
        simp [beginsWith_append]
      have hdrop : String.drop i.SK RolePrefix.length = s := by
        rw [hsk, strDrop_append]
      have hany := (hwf i hit hedge).2
      unfold resolveRoleEdge at hres
      have hpid := option_any_at_some _ _ r hres hany
      rw [beq_iff_eq] at hpid
      rw [hdrop] at hpid
      refine ⟨i, hit, hpk, ?_⟩
      rw [hsk, ← hpid, hrid]
    · rintro ⟨i, hit, hpk, hsk⟩
      have hedge : isUserRoleEdge i = true := by
        unfold isUserRoleEdge
        rw [hpk, hsk]
        simp [beginsWith_append]
      have hany := (hwf i hit hedge).2
      have hdrop : String.drop i.SK RolePrefix.length = rID := by
        rw [hsk, strDrop_append]
      rw [hdrop] at hany
      obtain ⟨r, hrs, hpid⟩ := option_any_exists _ _ hany
      rw [beq_iff_eq] at hpid
      refine ⟨r, ?_, hpid⟩
      apply List.mem_filterMap.mpr
      refine ⟨i, ?_, ?_⟩
      · apply List.mem_filter.mpr
        refine ⟨hit, ?_⟩
        rw [Bool.and_eq_true, beq_iff_eq]
        exact ⟨hpk, by rw [hsk]; exact beginsWith_append _ _⟩
      · unfold resolveRoleEdge
        rw [hdrop]
        exact hrs

/-- Witness for C8 on a concrete well-formed table: user `u1`, role `r1`,
and one edge between them. -/
theorem C8_reverse_forward_consistent_witness :
    ((∃ u ∈ usersInRoleList [userToItem { ID := "u1", DisplayName := "U", Email := "e", CreatedAt := 1, UpdatedAt := 1 },
          roleToItem { ID := "r1", DisplayName := "R", Description := "", CreatedAt := 1, UpdatedAt := 1 },
          userRoleEdgeItem 2 "u1" "r1"] "r1", u.ID = "u1") ↔
      (∃ i ∈ [userToItem { ID := "u1", DisplayName := "U", Email := "e", CreatedAt := 1, UpdatedAt := 1 },
          roleToItem { ID := "r1", DisplayName := "R", Description := "", CreatedAt := 1, UpdatedAt := 1 },
          userRoleEdgeItem 2 "u1" "r1"], i.PK = UserPrefix ++ "u1" ∧ i.SK = RolePrefix ++ "r1"))
    ∧ ((∃ r ∈ userRolesList [userToItem { ID := "u1", DisplayName := "U", Email := "e", CreatedAt := 1, UpdatedAt := 1 },
          roleToItem { ID := "r1", DisplayName := "R", Description := "", CreatedAt := 1, UpdatedAt := 1 },
          userRoleEdgeItem 2 "u1" "r1"] "u1", r.ID = "r1") ↔
      (∃ i ∈ [userToItem { ID := "u1", DisplayName := "U", Email := "e", CreatedAt := 1, UpdatedAt := 1 },
          roleToItem { ID := "r1", DisplayName := "R", Description := "", CreatedAt := 1, UpdatedAt := 1 },
          userRoleEdgeItem 2 "u1" "r1"], i.PK = UserPrefix ++ "u1" ∧ i.SK = RolePrefix ++ "r1")) :=
  C8_reverse_forward_consistent
    [userToItem { ID := "u1", DisplayName := "U", Email := "e", CreatedAt := 1, UpdatedAt := 1 },
      roleToItem { ID := "r1", DisplayName := "R", Description := "", CreatedAt := 1, UpdatedAt := 1 },
      userRoleEdgeItem 2 "u1" "r1"] "u1" "r1" (by unfold WellFormed; decide)

end RBAC

